import Mathlib

/-!
Shallow embedding of the telemetry normalisation module
`src/x_make_telemetry_vector_x/__init__.py`: the Pydantic model
`TelemetryEvent` with its field validators, the helper `_ensure_utc`, and
`normalize_payload`, together with models of the CPython library routines
the module calls (`str.strip`, `str.replace`, `datetime.fromisoformat`,
`datetime.fromtimestamp`, `datetime.astimezone`, `datetime.isoformat`).
Python values are embedded as the inductive `PyValue`; raised exceptions
become `Except` errors carrying the exception class and message content.
-/

/-- Whitespace predicate used by Python `str.strip()` (the Unicode
whitespace code points recognised by `str`). -/
def pyIsSpace (c : Char) : Bool :=
  decide ((9 ≤ c.toNat ∧ c.toNat ≤ 13) ∨ c.toNat = 32 ∨ (28 ≤ c.toNat ∧ c.toNat ≤ 31) ∨
    c.toNat = 133 ∨ c.toNat = 160 ∨ c.toNat = 5760 ∨ (8192 ≤ c.toNat ∧ c.toNat ≤ 8202) ∨
    c.toNat = 8232 ∨ c.toNat = 8233 ∨ c.toNat = 8239 ∨ c.toNat = 8287 ∨ c.toNat = 12288)

/-- Python `str.strip()` acting on the character list: drop whitespace from
both ends. -/
def pyStripList (l : List Char) : List Char :=
  ((l.dropWhile pyIsSpace).reverse.dropWhile pyIsSpace).reverse

/-- Python `str.strip()`. -/
def pyStrip (s : String) : String := ⟨pyStripList s.data⟩

/-- Python `str.replace(pat, rep)`: replace every non-overlapping occurrence
of `pat`, scanning left to right.  The fuel argument (instantiated with the
length of the string) only serves structural termination; it is never
exhausted for a non-empty pattern, and the module only ever replaces the
non-empty patterns `"Z"` and `"+00:00"`. -/
def replaceAux (pat rep : List Char) : Nat → List Char → List Char
  | _, [] => []
  | 0, s => s
  | fuel + 1, c :: rest =>
      if pat.isPrefixOf (c :: rest) then
        rep ++ replaceAux pat rep fuel ((c :: rest).drop pat.length)
      else
        c :: replaceAux pat rep fuel rest

/-- Python `str.replace(pat, rep)` on `String`. -/
def pyReplace (s pat rep : String) : String :=
  ⟨replaceAux pat.data rep.data s.data.length s.data⟩

/-- Gregorian leap-year rule (as used by Python `datetime`). -/
def isLeapYear (y : Nat) : Bool :=
  decide (y % 4 = 0 ∧ (y % 100 ≠ 0 ∨ y % 400 = 0))

/-- Number of days in a month of the Gregorian calendar. -/
def daysInMonth (y m : Nat) : Nat :=
  if m = 2 then (if isLeapYear y then 29 else 28)
  else if m = 4 ∨ m = 6 ∨ m = 9 ∨ m = 11 then 30 else 31

/-- Model of a Python `datetime.datetime` value: wall-clock fields plus an
optional fixed UTC offset in seconds (`tz = Option.none` models a naive
datetime, `tz = some 0` models `tzinfo = timezone.utc`).  The offsets the
module can produce are whole seconds, so sub-second offsets are not
modelled. -/
structure PyDatetime where
  year : Int
  month : Nat
  day : Nat
  hour : Nat
  minute : Nat
  second : Nat
  microsecond : Nat
  tz : Option Int
deriving DecidableEq, Repr

/-- Field ranges enforced by the Python `datetime` constructor
(`MINYEAR = 1`, `MAXYEAR = 9999`, calendar-valid day, time fields in
range). -/
def PyDatetime.Valid (d : PyDatetime) : Prop :=
  1 ≤ d.year ∧ d.year ≤ 9999 ∧ 1 ≤ d.month ∧ d.month ≤ 12 ∧
    1 ≤ d.day ∧ d.day ≤ daysInMonth d.year.toNat d.month ∧
    d.hour ≤ 23 ∧ d.minute ≤ 59 ∧ d.second ≤ 59 ∧ d.microsecond ≤ 999999

instance (d : PyDatetime) : Decidable d.Valid := by
  unfold PyDatetime.Valid; infer_instance

/-- Days from 1970-01-01 to the given proleptic-Gregorian civil date
(Howard Hinnant's `days_from_civil` algorithm, the arithmetic behind
`datetime.toordinal`). -/
def daysFromCivil (y : Int) (m d : Nat) : Int :=
  let yAdj := if m ≤ 2 then y - 1 else y
  let era := yAdj.fdiv 400
  let yoe := yAdj - era * 400
  let mp : Int := if 2 < m then (m : Int) - 3 else (m : Int) + 9
  let doy := (153 * mp + 2).fdiv 5 + (d : Int) - 1
  let doe := yoe * 365 + yoe.fdiv 4 - yoe.fdiv 100 + doy
  era * 146097 + doe - 719468

/-- Civil date from days since 1970-01-01 (Howard Hinnant's
`civil_from_days`, the arithmetic behind `datetime.fromordinal`). -/
def civilFromDays (z0 : Int) : Int × Nat × Nat :=
  let z := z0 + 719468
  let era := z.fdiv 146097
  let doe := (z - era * 146097).toNat
  let yoe := (doe - doe / 1460 + doe / 36524 - doe / 146096) / 365
  let y : Int := (yoe : Int) + era * 400
  let doy := doe - (365 * yoe + yoe / 4 - yoe / 100)
  let mp := (5 * doy + 2) / 153
  let d := doy - (153 * mp + 2) / 5 + 1
  let m := if mp < 10 then mp + 3 else mp - 9
  (if m ≤ 2 then y + 1 else y, m, d)

/-- Microseconds since the Unix epoch denoted by the wall-clock fields of a
datetime (ignoring its offset). -/
def epochMicroOf (d : PyDatetime) : Int :=
  (daysFromCivil d.year d.month d.day * 86400 +
      ((d.hour * 3600 + d.minute * 60 + d.second : Nat) : Int)) * 1000000 +
    (d.microsecond : Int)

/-- UTC wall fields denoted by a count of microseconds since the Unix
epoch: the pure div/mod and civil-date arithmetic inside
`datetime.fromtimestamp(_, tz=UTC)`.  The `datetime` constructor's
year-range check — the point where Python raises for an instant outside
years 1..9999 — is modelled separately by `datetime_fromtimestamp`, which
guards this computation. -/
def fromEpochMicro (t : Int) : PyDatetime :=
  let s := t.fdiv 1000000
  let us := (t.fmod 1000000).toNat
  let days := s.fdiv 86400
  let sod := (s.fmod 86400).toNat
  let c := civilFromDays days
  { year := c.1, month := c.2.1, day := c.2.2,
    hour := sod / 3600, minute := sod % 3600 / 60, second := sod % 60,
    microsecond := us, tz := some 0 }

/-- Wall fields returned by `datetime.fromtimestamp(n, tz=UTC)` for an
integer number of epoch seconds whose instant is representable; the range
check under which Python raises instead is carried by
`datetime_fromtimestamp`. -/
def fromtimestampUTC (n : Int) : PyDatetime := fromEpochMicro (n * 1000000)

/-- Model of `datetime.fromtimestamp(_, tz=UTC)` on a total count of
microseconds since the epoch: the field computation of `fromEpochMicro`
guarded by the `datetime` constructor's year-range check.  For an instant
outside years 1..9999 Python raises (`ValueError`, citing the year, which
Pydantic wraps like any validator error; for magnitudes beyond the platform
`time_t` an `OverflowError` is raised instead — a platform edge none of the
claims exercise, modelled here by the same error path). -/
def datetime_fromtimestamp (t : Int) : Except String PyDatetime :=
  let d := fromEpochMicro t
  if 1 ≤ d.year ∧ d.year ≤ 9999 then .ok d
  else .error ("year " ++ toString d.year ++ " is out of range")

/-- Round-half-to-even on a rational, the rounding CPython applies when
converting a float timestamp to whole microseconds. -/
def roundHalfEven (q : Rat) : Int :=
  let f := ⌊q⌋
  if q - (f : Rat) < 1 / 2 then f
  else if (1 / 2 : Rat) < q - (f : Rat) then f + 1
  else if f % 2 = 0 then f else f + 1

/-- Model of `d.astimezone(UTC)` on the datetimes this module produces: an
aware datetime is converted to the UTC instant it denotes.  For an offset of
zero the wall fields are returned unchanged (CPython returns `self` when the
attached tzinfo is the UTC singleton, which is the case on every such path
in this module).  The module never calls `astimezone` on a naive datetime
(`_coerce_timestamp` and `_ensure_utc` always attach a timezone first); in
that unreachable case Python would consult the local timezone, and the model
returns the value unchanged. -/
def astimezoneUTC (d : PyDatetime) : PyDatetime :=
  match d.tz with
  | Option.none => d
  | some off =>
      if off = 0 then d else fromEpochMicro (epochMicroOf d - off * 1000000)

/-- Decimal digit character (for the zero-padded fields of `isoformat`; the
callers always pass a value below 10 after division). -/
def digitChar (n : Nat) : Char := Char.ofNat (48 + n % 10)

/-- Two-digit zero-padded decimal rendering. -/
def pad2 (n : Nat) : List Char := [digitChar (n / 10), digitChar n]

/-- Four-digit zero-padded decimal rendering. -/
def pad4 (n : Nat) : List Char :=
  [digitChar (n / 1000), digitChar (n / 100), digitChar (n / 10), digitChar n]

/-- Six-digit zero-padded decimal rendering. -/
def pad6 (n : Nat) : List Char :=
  [digitChar (n / 100000), digitChar (n / 10000), digitChar (n / 1000),
    digitChar (n / 100), digitChar (n / 10), digitChar n]

/-- Fractional-seconds part of `isoformat` (`.ffffff`, printed exactly when
the microsecond field is nonzero). -/
def fracChars (us : Nat) : List Char :=
  if us = 0 then [] else '.' :: pad6 us

/-- UTC-offset suffix of `isoformat`: empty for a naive value, otherwise
`±HH:MM` with a `:SS` tail when the offset has a seconds part. -/
def offsetChars : Option Int → List Char
  | Option.none => []
  | some off =>
      let sign := if off < 0 then '-' else '+'
      let a := off.natAbs
      sign :: (pad2 (a / 3600) ++ (':' :: (pad2 (a % 3600 / 60) ++
        (if a % 60 = 0 then [] else ':' :: pad2 (a % 60)))))

/-- Date-and-time part of `datetime.isoformat()` (without the offset
suffix). -/
def dateTimeChars (d : PyDatetime) : List Char :=
  pad4 d.year.toNat ++ ('-' :: (pad2 d.month ++ ('-' :: (pad2 d.day ++
    ('T' :: (pad2 d.hour ++ (':' :: (pad2 d.minute ++ (':' :: (pad2 d.second ++
      fracChars d.microsecond))))))))))

/-- Model of `datetime.isoformat()` (default `timespec`, whole-second
offsets). -/
def isoformat (d : PyDatetime) : String :=
  ⟨dateTimeChars d ++ offsetChars d.tz⟩

/-- The expression `dt.isoformat().replace("+00:00", "Z")` that
`normalize_payload` applies to both timestamp fields. -/
def isoZ (d : PyDatetime) : String := pyReplace (isoformat d) "+00:00" "Z"

/-- Value of a decimal digit character, if it is one. -/
def readDigit (c : Char) : Option Nat :=
  if 48 ≤ c.toNat ∧ c.toNat ≤ 57 then some (c.toNat - 48) else Option.none

/-- Read exactly two decimal digits. -/
def parse2 : List Char → Option (Nat × List Char)
  | c1 :: c2 :: rest => do
      let a ← readDigit c1
      let b ← readDigit c2
      pure (10 * a + b, rest)
  | _ => Option.none

/-- Read exactly four decimal digits. -/
def parse4 : List Char → Option (Nat × List Char)
  | c1 :: c2 :: c3 :: c4 :: rest => do
      let a ← readDigit c1
      let b ← readDigit c2
      let c ← readDigit c3
      let d ← readDigit c4
      pure (1000 * a + 100 * b + 10 * c + d, rest)
  | _ => Option.none

/-- Consume one expected character. -/
def expectChar (c : Char) : List Char → Option (List Char)
  | x :: rest => if x = c then some rest else Option.none
  | [] => Option.none

/-- Numeric value of a digit run (most significant first). -/
def digitsToNat (l : List Char) : Nat :=
  l.foldl (fun acc c => acc * 10 + ((readDigit c).getD 0)) 0

/-- Fractional-seconds parser of `datetime.fromisoformat`: one or more
digits after the decimal point, the first six of which give the microsecond
value (further digits are truncated). -/
def parseFrac (cs : List Char) : Option (Nat × List Char) :=
  let ds := cs.takeWhile (fun c => (readDigit c).isSome)
  if ds.isEmpty then Option.none
  else
    let sixDigits := ds.take 6
    some (digitsToNat sixDigits * 10 ^ (6 - sixDigits.length), cs.drop ds.length)

/-- UTC-offset parser of `datetime.fromisoformat`, for the `±HH:MM` shape
(the only offset shape this module's strings reach after `"Z"` has been
rewritten to `"+00:00"`; CPython additionally accepts second and basic
forms). -/
def parseTzOffset : List Char → Option (Option Int × List Char)
  | [] => some (Option.none, [])
  | '+' :: rest => do
      let (h, r1) ← parse2 rest
      let r2 ← expectChar ':' r1
      let (m, r3) ← parse2 r2
      if h ≤ 23 ∧ m ≤ 59 then some (some ((h : Int) * 3600 + (m : Int) * 60), r3)
      else Option.none
  | '-' :: rest => do
      let (h, r1) ← parse2 rest
      let r2 ← expectChar ':' r1
      let (m, r3) ← parse2 r2
      if h ≤ 23 ∧ m ≤ 59 then some (some (-((h : Int) * 3600 + (m : Int) * 60)), r3)
      else Option.none
  | _ => Option.none

/-- Optional fractional-seconds step: a fraction is parsed exactly when the
remainder starts with a decimal point. -/
def parseFracOpt : List Char → Option (Nat × List Char)
  | '.' :: fr => parseFrac fr
  | r => some (0, r)

/-- Time-of-day parser of `datetime.fromisoformat`, for the
`HH:MM:SS[.ffffff][±HH:MM]` shape (CPython additionally accepts truncated
and basic forms, which no string of this development exercises). -/
def parseTime (cs : List Char) : Option (Nat × Nat × Nat × Nat × Option Int) := do
  let (h, r1) ← parse2 cs
  let r2 ← expectChar ':' r1
  let (mi, r3) ← parse2 r2
  let r4 ← expectChar ':' r3
  let (s, r5) ← parse2 r4
  let (us, r6) ← parseFracOpt r5
  let (tz, r7) ← parseTzOffset r6
  if r7 = [] ∧ h ≤ 23 ∧ mi ≤ 59 ∧ s ≤ 59 then some (h, mi, s, us, tz)
  else Option.none

/-- Model of `datetime.fromisoformat` for the extended format
`YYYY-MM-DD[THH:MM:SS[.ffffff][±HH:MM]]`, with the range validation of the
`datetime` constructor.  CPython's parser accepts further shapes (basic
format, other separators, truncated times); they are outside what the
claims exercise and parse to `Option.none` here. -/
def fromisoformat (cs : List Char) : Option PyDatetime := do
  let (y, r1) ← parse4 cs
  let r2 ← expectChar '-' r1
  let (mo, r3) ← parse2 r2
  let r4 ← expectChar '-' r3
  let (d, r5) ← parse2 r4
  match r5 with
  | [] =>
      if 1 ≤ y ∧ 1 ≤ mo ∧ mo ≤ 12 ∧ 1 ≤ d ∧ d ≤ daysInMonth y mo then
        some ⟨(y : Int), mo, d, 0, 0, 0, 0, Option.none⟩
      else Option.none
  | 'T' :: tr => do
      let (h, mi, s, us, tz) ← parseTime tr
      if 1 ≤ y ∧ 1 ≤ mo ∧ mo ≤ 12 ∧ 1 ≤ d ∧ d ≤ daysInMonth y mo then
        some ⟨(y : Int), mo, d, h, mi, s, us, tz⟩
      else Option.none
  | _ => Option.none

/-- Embedded Python values, covering the shapes `normalize_payload` and the
`TelemetryEvent` validators inspect.  Dictionaries are association lists
with string keys in insertion order (Python dictionaries have unique keys;
lookup takes the first binding).  A float is carried as the exact rational
value of the IEEE double.  `obj` stands for any other object (such as the
`object()` sentinel of the tests). -/
inductive PyValue where
  | none
  | bool (b : Bool)
  | int (n : Int)
  | float (q : Rat)
  | str (s : String)
  | dt (d : PyDatetime)
  | list (xs : List PyValue)
  | dict (entries : List (String × PyValue))
  | obj

/-- Simplified Python `repr` of a value, used only to embed the offending
value in error messages (`f"... {value!r}"`).  String escaping, float
formatting, container recursion and the address in `object.__repr__` are
abbreviated; no claim depends on these details. -/
def pyRepr : PyValue → String
  | .none => "None"
  | .bool b => if b then "True" else "False"
  | .int n => toString n
  | .float q => toString q
  | .str s => "\x27" ++ s ++ "\x27"
  | .dt _ => "datetime.datetime(...)"
  | .list _ => "[...]"
  | .dict _ => "\x7b...\x7d"
  | .obj => "<object object>"

/-- One entry of a Pydantic `ValidationError`: the error kinds
`TelemetryEvent.model_validate` can produce, each carrying the content the
rendered message cites (the field name for a missing or mistyped field, the
`str(ValueError)` text for an error raised inside a field validator). -/
inductive VError where
  | missingField (name : String)
  | stringTypeExpected (name : String)
  | dictTypeExpected (name : String)
  | valueError (msg : String)
deriving DecidableEq, Repr

/-- The `_coerce_timestamp` field validator (`mode="before"`): accept a
datetime, a number or a string, returning a timezone-aware datetime, and
raise `ValueError` (the message) otherwise.  A Python `bool` is an instance
of `int`, so booleans take the numeric branch. -/
def _coerce_timestamp : PyValue → Except String PyDatetime
  | .dt d =>
      match d.tz with
      | Option.none => .ok { d with tz := some 0 }
      | some _ => .ok d
  | .bool b => datetime_fromtimestamp ((if b then 1 else 0) * 1000000)
  | .int n => datetime_fromtimestamp (n * 1000000)
  | .float q => datetime_fromtimestamp (roundHalfEven (q * 1000000))
  | .str s =>
      let isoValue := pyReplace s "Z" "+00:00"
      match fromisoformat isoValue.data with
      | Option.none => .error ("Invalid isoformat string: " ++ pyRepr (.str isoValue))
      | some parsed =>
          match parsed.tz with
          | Option.none => .ok { parsed with tz := some 0 }
          | some _ => .ok (astimezoneUTC parsed)
  | v => .error ("Unsupported timestamp value: " ++ pyRepr v)

/-- The `_strip_event_id` field validator: strip the value and reject an
empty result. -/
def _strip_event_id (value : String) : Except String String :=
  let clean := pyStrip value
  if clean = "" then .error "event_id may not be empty" else .ok clean

/-- The `_strip_required_fields` field validator (applied to `source` and
`action`): strip the value and reject an empty result. -/
def _strip_required_fields (value : String) : Except String String :=
  let clean := pyStrip value
  if clean = "" then .error "source/action cannot be blank" else .ok clean

/-- First binding of a key in a Python dictionary (keys are unique in a real
Python dict, so the first binding is the binding). -/
def lookupKey (ev : List (String × PyValue)) (k : String) : Option PyValue :=
  match ev with
  | [] => Option.none
  | (k1, v) :: rest => if k1 = k then some v else lookupKey rest k

/-- Raw value populating the `event_id` field: the alias `id` is consulted
first, then (because of `populate_by_name=True`) the field name
`event_id`. -/
def rawEventId (ev : List (String × PyValue)) : Option PyValue :=
  match lookupKey ev "id" with
  | some v => some v
  | Option.none => lookupKey ev "event_id"

/-- Validation of the `event_id` field: required via alias `id`, must be a
string, then `_strip_event_id` runs. -/
def extract_event_id (ev : List (String × PyValue)) : Except VError String :=
  match rawEventId ev with
  | Option.none => .error (.missingField "id")
  | some (.str s) =>
      match _strip_event_id s with
      | .ok clean => .ok clean
      | .error msg => .error (.valueError msg)
  | some _ => .error (.stringTypeExpected "event_id")

/-- Validation of a required string field (`source` or `action`): required,
must be a string, then `_strip_required_fields` runs. -/
def extract_required_str (ev : List (String × PyValue)) (name : String) :
    Except VError String :=
  match lookupKey ev name with
  | Option.none => .error (.missingField name)
  | some (.str s) =>
      match _strip_required_fields s with
      | .ok clean => .ok clean
      | .error msg => .error (.valueError msg)
  | some _ => .error (.stringTypeExpected name)

/-- Validation of the `timestamp` field: required, then the before-mode
validator `_coerce_timestamp` runs on the raw value. -/
def extract_timestamp (ev : List (String × PyValue)) : Except VError PyDatetime :=
  match lookupKey ev "timestamp" with
  | Option.none => .error (.missingField "timestamp")
  | some v =>
      match _coerce_timestamp v with
      | .ok d => .ok d
      | .error msg => .error (.valueError msg)

/-- Validation of an optional mapping field (`payload` or `metadata`):
absent gives the empty dict (`default_factory=dict`), a dict passes through
with its entries (string keys, `Any` values), anything else is a type
error. -/
def extract_dict_field (ev : List (String × PyValue)) (name : String) :
    Except VError (List (String × PyValue)) :=
  match lookupKey ev name with
  | Option.none => .ok []
  | some (.dict m) => .ok m
  | some _ => .error (.dictTypeExpected name)

/-- Keys kept by `extra="allow"`: bindings whose key is not consumed by a
declared field or its alias. -/
def extraEntries (ev : List (String × PyValue)) : List (String × PyValue) :=
  ev.filter (fun kv =>
    !(["id", "event_id", "source", "action", "timestamp", "payload",
        "metadata"].contains kv.1))

/-- The validated `TelemetryEvent` model: canonical envelope fields plus the
extra bindings retained by `extra="allow"`. -/
structure TelemetryEvent where
  event_id : String
  source : String
  action : String
  timestamp : PyDatetime
  payload : List (String × PyValue)
  metadata : List (String × PyValue)
  extra : List (String × PyValue)

/-- `TelemetryEvent.model_validate`: validate every field in declaration
order; on failure report the per-field errors in that order (Pydantic
collects all field errors into one `ValidationError`). -/
def model_validate (ev : List (String × PyValue)) :
    Except (List VError) TelemetryEvent :=
  match extract_event_id ev, extract_required_str ev "source",
      extract_required_str ev "action", extract_timestamp ev,
      extract_dict_field ev "payload", extract_dict_field ev "metadata" with
  | .ok i, .ok s, .ok a, .ok t, .ok p, .ok m =>
      .ok ⟨i, s, a, t, p, m, extraEntries ev⟩
  | i, s, a, t, p, m =>
      .error (errList i ++ errList s ++ errList a ++ errList t ++
        errList p ++ errList m)
where
  errList {α : Type} : Except VError α → List VError
    | .error e => [e]
    | .ok _ => []

/-- The `_ensure_utc` helper: attach UTC to a naive datetime, keep an aware
one unchanged. -/
def _ensure_utc (d : PyDatetime) : PyDatetime :=
  match d.tz with
  | Option.none => { d with tz := some 0 }
  | some _ => d

/-- The module-level default version constant. -/
def DEFAULT_TELEMETRY_VERSION : String := "0.1.0"

/-- Exceptions `normalize_payload` can raise: `TypeError` for a non-mapping
input, and `ValueError` (re-raised from the Pydantic `ValidationError`,
carrying its entries) for a validation failure. -/
inductive NormError where
  | typeError (msg : String)
  | valueError (errs : List VError)
deriving Repr

/-- The canonical envelope dictionary returned by `normalize_payload` (its
fixed key set, as record fields in the construction order of the source). -/
structure CanonicalRecord where
  telemetry_version : String
  event_id : String
  source : String
  action : String
  timestamp : String
  ingested_at : String
  payload : List (String × PyValue)
  metadata : List (String × PyValue)

/-- The expression `telemetry_version or DEFAULT_TELEMETRY_VERSION`:
Python `or` falls back on any falsy value, and the only falsy string is the
empty one, so an empty supplied version also selects the default. -/
def versionOrDefault (telemetry_version : Option String) : String :=
  match telemetry_version with
  | some s => if s = "" then DEFAULT_TELEMETRY_VERSION else s
  | Option.none => DEFAULT_TELEMETRY_VERSION

/-- The expression
`_ensure_utc(ingested_at) if ingested_at else datetime.now(tz=UTC)`:
a supplied datetime is always truthy in Python, and `now` stands for the
wall-clock read. -/
def ingestedAtOrNow (ingested_at : Option PyDatetime) (now : PyDatetime) : PyDatetime :=
  match ingested_at with
  | some d => _ensure_utc d
  | Option.none => now

/-- The `normalize_payload` function.  `now` stands for the single ambient
wall-clock read `datetime.now(tz=UTC)` performed when `ingested_at` is not
supplied. -/
def normalize_payload (event : PyValue) (telemetry_version : Option String)
    (ingested_at : Option PyDatetime) (now : PyDatetime) :
    Except NormError CanonicalRecord :=
  match event with
  | .dict ev =>
      match model_validate ev with
      | .error errs => .error (.valueError errs)
      | .ok model =>
          let normalized_ingested_at := ingestedAtOrNow ingested_at now
          .ok
            { telemetry_version := versionOrDefault telemetry_version
              event_id := model.event_id
              source := model.source
              action := model.action
              timestamp := isoZ (astimezoneUTC model.timestamp)
              ingested_at := isoZ (astimezoneUTC normalized_ingested_at)
              payload := model.payload
              metadata := model.metadata }
  | _ => .error (.typeError "Telemetry event payload must be a mapping")

section Lemmas

theorem digitChar_toNat (k : Nat) : (digitChar k).toNat = 48 + k % 10 := by
  have h : k % 10 = 0 ∨ k % 10 = 1 ∨ k % 10 = 2 ∨ k % 10 = 3 ∨ k % 10 = 4 ∨
      k % 10 = 5 ∨ k % 10 = 6 ∨ k % 10 = 7 ∨ k % 10 = 8 ∨ k % 10 = 9 := by omega
  unfold digitChar
  rcases h with h | h | h | h | h | h | h | h | h | h <;> rw [h] <;> decide

theorem readDigit_digitChar (k : Nat) : readDigit (digitChar k) = some (k % 10) := by
  unfold readDigit
  rw [digitChar_toNat]
  rw [if_pos ⟨by omega, by omega⟩]
  congr 1
  omega

theorem digitChar_ne (k : Nat) (c : Char) (h : c.toNat < 48 ∨ 57 < c.toNat) :
    digitChar k ≠ c := by
  intro he
  have h2 := digitChar_toNat k
  rw [he] at h2
  omega

theorem parse2_pad2 (n : Nat) (hn : n < 100) (rest : List Char) :
    parse2 (pad2 n ++ rest) = some (n, rest) := by
  simp only [pad2, List.cons_append, List.nil_append, parse2, readDigit_digitChar,
    Option.bind_eq_bind, Option.some_bind, Option.pure_def, Option.some.injEq,
    Prod.mk.injEq, and_true]
  omega

theorem parse4_pad4 (n : Nat) (hn : n < 10000) (rest : List Char) :
    parse4 (pad4 n ++ rest) = some (n, rest) := by
  simp only [pad4, List.cons_append, List.nil_append, parse4, readDigit_digitChar,
    Option.bind_eq_bind, Option.some_bind, Option.pure_def, Option.some.injEq,
    Prod.mk.injEq, and_true]
  omega

theorem expectChar_cons (c : Char) (rest : List Char) :
    expectChar c (c :: rest) = some rest := by
  simp [expectChar]

end Lemmas

theorem digitsToNat_pad6 (n : Nat) (hn : n ≤ 999999) : digitsToNat (pad6 n) = n := by
  simp only [pad6, digitsToNat, List.foldl_cons, List.foldl_nil, readDigit_digitChar,
    Option.getD_some]
  omega

theorem readDigit_isSome_digitChar (k : Nat) : (readDigit (digitChar k)).isSome = true := by
  rw [readDigit_digitChar]
  rfl

theorem parseFrac_pad6 (n : Nat) (hn : n ≤ 999999) (t : List Char) :
    parseFrac (pad6 n ++ '+' :: t) = some (n, '+' :: t) := by
  have hplus : readDigit '+' = Option.none := by decide
  simp only [parseFrac, pad6, List.cons_append, List.nil_append, List.takeWhile,
    readDigit_isSome_digitChar, hplus, Option.isSome_none, List.isEmpty_cons,
    List.take, List.drop, List.length_cons, List.length_nil]
  norm_num
  rw [show digitsToNat [digitChar (n / 100000), digitChar (n / 10000), digitChar (n / 1000),
      digitChar (n / 100), digitChar (n / 10), digitChar n] = digitsToNat (pad6 n) from rfl,
    digitsToNat_pad6 n hn]

theorem isPrefixOf_self (l : List Char) : l.isPrefixOf l = true := by
  induction l with
  | nil => rfl
  | cons a t ih => simp [List.isPrefixOf, ih]

theorem replaceAux_append (p : Char) (ps rep : List Char) (a : List Char) (h : p ∉ a)
    (fuel : Nat) (hf : a.length + 1 ≤ fuel) :
    replaceAux (p :: ps) rep fuel (a ++ p :: ps) = a ++ rep := by
  induction a generalizing fuel with
  | nil =>
      match fuel, hf with
      | f + 1, _ =>
        simp only [List.nil_append, replaceAux, isPrefixOf_self, if_true]
        rw [show (p :: ps).length = ps.length + 1 from rfl]
        rw [show List.drop (ps.length + 1) (p :: ps) = List.drop ps.length ps from rfl]
        rw [List.drop_length]
        simp [replaceAux]
  | cons c a ih =>
      match fuel, hf with
      | f + 1, hf =>
        have hpc : p ≠ c := fun he => h (he ▸ List.mem_cons_self c a)
        have hpre : (p :: ps).isPrefixOf (c :: (a ++ p :: ps)) = false := by
          simp [List.isPrefixOf, hpc]
        simp only [List.cons_append, replaceAux, List.append_eq, hpre,
          Bool.false_eq_true, if_false]
        rw [ih (fun hm => h (List.mem_cons_of_mem c hm)) f (by
          simpa using Nat.succ_le_succ_iff.mp hf)]

theorem pyReplace_append (a : List Char) (p : Char) (ps : List Char) (rep : String)
    (h : p ∉ a) : pyReplace ⟨a ++ p :: ps⟩ ⟨p :: ps⟩ rep = ⟨a ++ rep.data⟩ := by
  unfold pyReplace
  congr 1
  exact replaceAux_append p ps rep.data a h _ (by simp [List.length_append])

theorem not_mem_dateTimeChars (c : Char) (hc : c.toNat < 48 ∨ 57 < c.toNat)
    (h45 : c ≠ '-') (h84 : c ≠ 'T') (h58 : c ≠ ':') (h46 : c ≠ '.') (d : PyDatetime) :
    c ∉ dateTimeChars d := by
  intro h
  have hd : ∀ k, c ≠ digitChar k := fun k he => absurd he.symm (digitChar_ne k c hc)
  unfold dateTimeChars pad4 pad2 fracChars pad6 at h
  by_cases hus : d.microsecond = 0 <;>
    simp [hus, hd, h45, h84, h58, h46] at h

theorem plus_not_mem (d : PyDatetime) : '+' ∉ dateTimeChars d :=
  not_mem_dateTimeChars '+' (by decide) (by decide) (by decide) (by decide) (by decide) d

theorem zed_not_mem (d : PyDatetime) : 'Z' ∉ dateTimeChars d :=
  not_mem_dateTimeChars 'Z' (by decide) (by decide) (by decide) (by decide) (by decide) d

theorem offsetChars_zero : offsetChars (some 0) = '+' :: "00:00".data := by decide

theorem isoZ_data (d : PyDatetime) (hz : d.tz = some 0) :
    isoZ d = ⟨dateTimeChars d ++ ['Z']⟩ := by
  unfold isoZ isoformat
  rw [hz, offsetChars_zero]
  rw [show ("+00:00" : String) = ⟨'+' :: "00:00".data⟩ from rfl]
  rw [pyReplace_append (dateTimeChars d) '+' "00:00".data "Z" (plus_not_mem d)]

theorem unreplaceZ (d : PyDatetime) :
    pyReplace ⟨dateTimeChars d ++ ['Z']⟩ "Z" "+00:00" =
      ⟨dateTimeChars d ++ "+00:00".data⟩ := by
  rw [show ("Z" : String) = ⟨'Z' :: ([] : List Char)⟩ from rfl]
  rw [pyReplace_append (dateTimeChars d) 'Z' [] "+00:00" (zed_not_mem d)]

theorem parseTzOffset_plus00 :
    parseTzOffset ('+' :: ['0', '0', ':', '0', '0']) = some (some 0, []) := by
  decide

theorem parseFracOpt_plus (t : List Char) : parseFracOpt ('+' :: t) = some (0, '+' :: t) :=
  rfl

theorem parseFracOpt_dot (fr : List Char) : parseFracOpt ('.' :: fr) = parseFrac fr :=
  rfl

theorem parseTime_roundtrip (h mi s us : Nat) (hh : h ≤ 23) (hmi : mi ≤ 59)
    (hs : s ≤ 59) (hus : us ≤ 999999) :
    parseTime (pad2 h ++ (':' :: (pad2 mi ++ (':' :: (pad2 s ++
      (fracChars us ++ "+00:00".data)))))) = some (h, mi, s, us, some 0) := by
  unfold parseTime
  rw [parse2_pad2 h (by omega)]
  simp only [Option.bind_eq_bind, Option.some_bind, expectChar_cons]
  rw [parse2_pad2 mi (by omega)]
  simp only [Option.some_bind, expectChar_cons]
  rw [parse2_pad2 s (by omega)]
  simp only [Option.some_bind]
  by_cases husz : us = 0
  · subst husz
    simp only [fracChars, if_true, if_pos rfl, List.nil_append]
    rw [parseFracOpt_plus]
    simp only [Option.some_bind]
    rw [parseTzOffset_plus00]
    simp only [Option.some_bind]
    rw [if_pos ⟨trivial, hh, hmi, hs⟩]
  · simp only [fracChars, if_neg husz, List.cons_append, parseFracOpt_dot]
    rw [parseFrac_pad6 us hus ['0', '0', ':', '0', '0']]
    simp only [Option.some_bind]
    rw [parseTzOffset_plus00]
    simp only [Option.some_bind]
    rw [if_pos ⟨trivial, hh, hmi, hs⟩]

theorem daysInMonth_le (y m : Nat) : daysInMonth y m ≤ 31 := by
  unfold daysInMonth
  split_ifs <;> omega

theorem fromisoformat_roundtrip (d : PyDatetime) (hv : d.Valid) :
    fromisoformat (dateTimeChars d ++ "+00:00".data) = some { d with tz := some 0 } := by
  obtain ⟨y, mo, dd, hh, mi, ss, us, tz⟩ := d
  dsimp only [PyDatetime.Valid] at hv
  obtain ⟨h1, h2, h3, h4, h5, h6, h7, h8, h9, h10⟩ := hv
  unfold dateTimeChars fromisoformat
  dsimp only
  simp only [List.append_assoc, List.cons_append]
  rw [parse4_pad4 _ (by omega)]
  simp only [Option.bind_eq_bind, Option.some_bind, expectChar_cons]
  rw [parse2_pad2 mo (by omega)]
  simp only [Option.some_bind, expectChar_cons]
  rw [parse2_pad2 dd (by have := daysInMonth_le y.toNat mo; omega)]
  simp only [Option.some_bind]
  rw [parseTime_roundtrip hh mi ss us h7 h8 h9 h10]
  simp only [Option.some_bind]
  rw [if_pos ⟨by omega, by omega, by omega, by omega, h6⟩]
  rw [Int.toNat_of_nonneg (by omega)]

theorem astimezoneUTC_zero (d : PyDatetime) (hz : d.tz = some 0) : astimezoneUTC d = d := by
  unfold astimezoneUTC
  rw [hz]
  simp

theorem set_tz_self (d : PyDatetime) (hz : d.tz = some 0) : { d with tz := some 0 } = d := by
  obtain ⟨y, mo, dd, hh, mi, ss, us, tz⟩ := d
  simp_all

theorem coerce_isoZ (d : PyDatetime) (hv : d.Valid) (hz : d.tz = some 0) :
    _coerce_timestamp (.str (isoZ d)) = .ok d := by
  rw [isoZ_data d hz]
  simp only [_coerce_timestamp]
  rw [unreplaceZ d]
  rw [show ((⟨dateTimeChars d ++ "+00:00".data⟩ : String)).data =
      dateTimeChars d ++ "+00:00".data from rfl]
  rw [fromisoformat_roundtrip d hv]
  dsimp only
  rw [astimezoneUTC_zero _ rfl]
  rw [set_tz_self d hz]

theorem astimezoneUTC_tz (d : PyDatetime) (off : Int) (hz : d.tz = some off) :
    (astimezoneUTC d).tz = some 0 := by
  unfold astimezoneUTC
  rw [hz]
  by_cases h : off = 0
  · subst h
    simp [hz]
  · simp [h, fromEpochMicro]

theorem fromEpochMicro_tz (t : Int) : (fromEpochMicro t).tz = some 0 := rfl

theorem datetime_fromtimestamp_ok {t : Int} {d : PyDatetime}
    (h : datetime_fromtimestamp t = .ok d) : d = fromEpochMicro t := by
  unfold datetime_fromtimestamp at h
  dsimp only at h
  by_cases hc : 1 ≤ (fromEpochMicro t).year ∧ (fromEpochMicro t).year ≤ 9999
  · rw [if_pos hc] at h
    injection h with he
    exact he.symm
  · rw [if_neg hc] at h
    exact absurd h (by simp)

theorem coerce_aware {v : PyValue} {t : PyDatetime} (h : _coerce_timestamp v = .ok t) :
    ∃ z, t.tz = some z := by
  cases v with
  | dt d =>
      unfold _coerce_timestamp at h
      dsimp only at h
      cases hz : d.tz with
      | none => rw [hz] at h; exact ⟨0, by cases h; rfl⟩
      | some off => rw [hz] at h; cases h; exact ⟨off, hz⟩
  | bool b =>
      unfold _coerce_timestamp at h
      dsimp only at h
      exact ⟨0, by rw [datetime_fromtimestamp_ok h]; exact fromEpochMicro_tz _⟩
  | int n =>
      unfold _coerce_timestamp at h
      dsimp only at h
      exact ⟨0, by rw [datetime_fromtimestamp_ok h]; exact fromEpochMicro_tz _⟩
  | float q =>
      unfold _coerce_timestamp at h
      dsimp only at h
      exact ⟨0, by rw [datetime_fromtimestamp_ok h]; exact fromEpochMicro_tz _⟩
  | str s =>
      unfold _coerce_timestamp at h
      dsimp only at h
      cases hp : fromisoformat (pyReplace s "Z" "+00:00").data with
      | none => rw [hp] at h; cases h
      | some parsed =>
          rw [hp] at h
          dsimp only at h
          cases hz : parsed.tz with
          | none => rw [hz] at h; exact ⟨0, by cases h; rfl⟩
          | some off =>
              rw [hz] at h
              cases h
              exact ⟨0, astimezoneUTC_tz parsed off hz⟩
  | none => cases h
  | list xs => cases h
  | dict entries => cases h
  | obj => cases h

theorem dropWhile_first_false (p : Char → Bool) (l : List Char) (c : Char) (t : List Char)
    (h : l.dropWhile p = c :: t) : p c = false := by
  induction l with
  | nil => simp [List.dropWhile] at h
  | cons a l ih =>
      rw [List.dropWhile] at h
      cases hpa : p a with
      | true => rw [hpa] at h; exact ih h
      | false => rw [hpa] at h; cases h; exact hpa

theorem pyStrip_has_nonspace (s : String) (h : pyStrip s ≠ "") :
    ∃ c ∈ (pyStrip s).data, pyIsSpace c = false := by
  unfold pyStrip pyStripList at h ⊢
  cases hin : (s.data.dropWhile pyIsSpace).reverse.dropWhile pyIsSpace with
  | nil => exact absurd (by rw [hin]; rfl) h
  | cons c t =>
      refine ⟨c, ?_, dropWhile_first_false pyIsSpace _ c t hin⟩
      simp [hin]

theorem strip_event_id_ok {s out : String} (h : _strip_event_id s = .ok out) :
    out = pyStrip s ∧ pyStrip s ≠ "" := by
  unfold _strip_event_id at h
  by_cases hc : pyStrip s = "" <;> simp [hc] at h
  exact ⟨h.symm, hc⟩

theorem strip_required_fields_ok {s out : String} (h : _strip_required_fields s = .ok out) :
    out = pyStrip s ∧ pyStrip s ≠ "" := by
  unfold _strip_required_fields at h
  by_cases hc : pyStrip s = "" <;> simp [hc] at h
  exact ⟨h.symm, hc⟩

theorem model_validate_ok {ev : List (String × PyValue)} {m : TelemetryEvent}
    (h : model_validate ev = .ok m) :
    extract_event_id ev = .ok m.event_id ∧
      extract_required_str ev "source" = .ok m.source ∧
      extract_required_str ev "action" = .ok m.action ∧
      extract_timestamp ev = .ok m.timestamp ∧
      extract_dict_field ev "payload" = .ok m.payload ∧
      extract_dict_field ev "metadata" = .ok m.metadata := by
  unfold model_validate at h
  split at h
  · rename_i i s a t p mm h1 h2 h3 h4 h5 h6
    injection h with hm
    subst hm
    exact ⟨h1, h2, h3, h4, h5, h6⟩
  · exact absurd h (by simp)

theorem model_validate_error {ev : List (String × PyValue)} {e : VError}
    (h : extract_event_id ev = .error e ∨ extract_required_str ev "source" = .error e ∨
      extract_required_str ev "action" = .error e ∨ extract_timestamp ev = .error e ∨
      extract_dict_field ev "payload" = .error e ∨
      extract_dict_field ev "metadata" = .error e) :
    ∃ errs, model_validate ev = .error errs ∧ e ∈ errs := by
  unfold model_validate
  split
  · rename_i i s a t p mm h1 h2 h3 h4 h5 h6
    rcases h with h | h | h | h | h | h <;> simp_all
  · rename_i i s a t p mm hne
    refine ⟨_, rfl, ?_⟩
    rcases h with h | h | h | h | h | h <;>
      simp [model_validate.errList, h]

theorem normalize_payload_ok {ev : List (String × PyValue)} {tv : Option String}
    {ia : Option PyDatetime} {now : PyDatetime} {r : CanonicalRecord}
    (h : normalize_payload (.dict ev) tv ia now = .ok r) :
    ∃ m, model_validate ev = .ok m ∧
      r.telemetry_version = versionOrDefault tv ∧
      r.event_id = m.event_id ∧ r.source = m.source ∧ r.action = m.action ∧
      r.timestamp = isoZ (astimezoneUTC m.timestamp) ∧
      r.ingested_at = isoZ (astimezoneUTC (ingestedAtOrNow ia now)) ∧
      r.payload = m.payload ∧ r.metadata = m.metadata := by
  unfold normalize_payload at h
  dsimp only at h
  split at h
  · exact absurd h (by simp)
  · rename_i model hm
    injection h with hr
    subst hr
    refine ⟨model, hm, ?_, ?_, ?_, ?_, ?_, ?_, ?_, ?_⟩ <;> rfl

theorem normalize_payload_error_of {ev : List (String × PyValue)} {tv : Option String}
    {ia : Option PyDatetime} {now : PyDatetime} {e : VError}
    (h : extract_event_id ev = .error e ∨ extract_required_str ev "source" = .error e ∨
      extract_required_str ev "action" = .error e ∨ extract_timestamp ev = .error e ∨
      extract_dict_field ev "payload" = .error e ∨
      extract_dict_field ev "metadata" = .error e) :
    ∃ errs, normalize_payload (.dict ev) tv ia now = .error (.valueError errs) ∧
      e ∈ errs := by
  obtain ⟨errs, hv, hm⟩ := model_validate_error h
  refine ⟨errs, ?_, hm⟩
  unfold normalize_payload
  dsimp only
  rw [hv]

/-- Reference instant standing for the wall-clock read in concrete runs. -/
def nowRef : PyDatetime := ⟨2026, 1, 1, 0, 0, 0, 0, some 0⟩

/-- The valid event of the repository's first test. -/
def okEvent : List (String × PyValue) :=
  [("id", .str "abc-123"), ("source", .str "github_clones"), ("action", .str "clone"),
    ("timestamp", .str "2025-11-12T10:30:00Z"),
    ("payload", .dict [("foo", .str "bar")]),
    ("metadata", .dict [("observer", .str "navarro")])]

/-- Canonical output of `okEvent` under `nowRef`. -/
def okRecord : CanonicalRecord :=
  { telemetry_version := "0.1.0", event_id := "abc-123", source := "github_clones",
    action := "clone", timestamp := "2025-11-12T10:30:00Z",
    ingested_at := "2026-01-01T00:00:00Z",
    payload := [("foo", .str "bar")], metadata := [("observer", .str "navarro")] }

/-- A valid event whose timestamp is the boolean `True`. -/
def boolEvent : List (String × PyValue) :=
  [("id", .str "bad"), ("source", .str "lab"), ("action", .str "emit"),
    ("timestamp", .bool true)]

/-- Canonical output of `boolEvent` under `nowRef`. -/
def boolRecord : CanonicalRecord :=
  { telemetry_version := "0.1.0", event_id := "bad", source := "lab",
    action := "emit", timestamp := "1970-01-01T00:00:01Z",
    ingested_at := "2026-01-01T00:00:00Z", payload := [], metadata := [] }

/-- The epoch-timestamp event of the repository's second test. -/
def epochEvent : List (String × PyValue) :=
  [("id", .str "xyz-789"), ("source", .str "visitor"), ("action", .str "ingest"),
    ("timestamp", .int 1700000000)]

/-- Canonical output of `epochEvent` under `nowRef`. -/
def epochRecord : CanonicalRecord :=
  { telemetry_version := "0.1.0", event_id := "xyz-789", source := "visitor",
    action := "ingest", timestamp := "2023-11-14T22:13:20Z",
    ingested_at := "2026-01-01T00:00:00Z", payload := [], metadata := [] }

/-- An event whose source field is missing. -/
def missingSourceEvent : List (String × PyValue) :=
  [("id", .str "x"), ("action", .str "emit"), ("timestamp", .int 0)]

/-- An event with a fractional-seconds timestamp written with three digits. -/
def fracEvent : List (String × PyValue) :=
  [("id", .str "a"), ("source", .str "b"), ("action", .str "c"),
    ("timestamp", .str "2025-11-12T10:30:00.500Z")]

/-- A valid event whose timestamp is a naive structured datetime. -/
def naiveDtEvent : List (String × PyValue) :=
  [("id", .str "naive"), ("source", .str "lab"), ("action", .str "emit"),
    ("timestamp", .dt ⟨2025, 11, 12, 8, 45, 0, 0, Option.none⟩)]

/-- Canonical output of `naiveDtEvent` under `nowRef`. -/
def naiveDtRecord : CanonicalRecord :=
  { telemetry_version := "0.1.0", event_id := "naive", source := "lab",
    action := "emit", timestamp := "2025-11-12T08:45:00Z",
    ingested_at := "2026-01-01T00:00:00Z", payload := [], metadata := [] }

/-- The canonical timestamp instant of `okEvent`. -/
def okInstant : PyDatetime := ⟨2025, 11, 12, 10, 30, 0, 0, some 0⟩

/-- C5: for every argument that is not a key-value mapping (a list, a
scalar, null, and so on), `normalize_payload` fails with the `TypeError`
("TypeInvalid") before any field-level validation runs: the result is that
error for every version, ingestion and clock argument, and no field of the
value is consulted. -/
theorem claim_C5_type_invalid (v : PyValue) (tv : Option String)
    (ia : Option PyDatetime) (now : PyDatetime) (h : ∀ ev, v ≠ .dict ev) :
    normalize_payload v tv ia now =
      .error (.typeError "Telemetry event payload must be a mapping") := by
  cases v <;> first | rfl | exact absurd rfl (h _)

/-- Witness for C5 at the concrete non-mapping input `[]` (a Python list). -/
theorem claim_C5_witness :
    (∀ ev, (PyValue.list []) ≠ PyValue.dict ev) ∧
      normalize_payload (.list []) Option.none Option.none nowRef =
        .error (.typeError "Telemetry event payload must be a mapping") :=
  ⟨fun _ h => PyValue.noConfusion h,
    claim_C5_type_invalid (.list []) Option.none Option.none nowRef
      (fun _ h => PyValue.noConfusion h)⟩

/-- C6: for every input mapping missing one of the four required fields
(`id` — also absent under its `event_id` alias —, `source`, `action`,
`timestamp`), `normalize_payload` raises the validation error
("SchemaInvalid") whose entries cite the name of the missing field. -/
theorem claim_C6_missing_field (ev : List (String × PyValue)) (tv : Option String)
    (ia : Option PyDatetime) (now : PyDatetime) :
    (rawEventId ev = Option.none →
      ∃ errs, normalize_payload (.dict ev) tv ia now = .error (.valueError errs) ∧
        VError.missingField "id" ∈ errs) ∧
    (lookupKey ev "source" = Option.none →
      ∃ errs, normalize_payload (.dict ev) tv ia now = .error (.valueError errs) ∧
        VError.missingField "source" ∈ errs) ∧
    (lookupKey ev "action" = Option.none →
      ∃ errs, normalize_payload (.dict ev) tv ia now = .error (.valueError errs) ∧
        VError.missingField "action" ∈ errs) ∧
    (lookupKey ev "timestamp" = Option.none →
      ∃ errs, normalize_payload (.dict ev) tv ia now = .error (.valueError errs) ∧
        VError.missingField "timestamp" ∈ errs) := by
  refine ⟨fun hmiss => ?_, fun hmiss => ?_, fun hmiss => ?_, fun hmiss => ?_⟩
  · exact normalize_payload_error_of (Or.inl (by unfold extract_event_id; rw [hmiss]))
  · exact normalize_payload_error_of (Or.inr (Or.inl
      (by unfold extract_required_str; rw [hmiss])))
  · exact normalize_payload_error_of (Or.inr (Or.inr (Or.inl
      (by unfold extract_required_str; rw [hmiss]))))
  · exact normalize_payload_error_of (Or.inr (Or.inr (Or.inr (Or.inl
      (by unfold extract_timestamp; rw [hmiss])))))

/-- Witness for C6 at a concrete event missing its `source` field. -/
theorem claim_C6_witness :
    lookupKey missingSourceEvent "source" = Option.none ∧
      ∃ errs, normalize_payload (.dict missingSourceEvent) Option.none Option.none
          nowRef = .error (.valueError errs) ∧ VError.missingField "source" ∈ errs :=
  ⟨rfl,
    (claim_C6_missing_field missingSourceEvent Option.none Option.none nowRef).2.1 rfl⟩

/-- C4: for every call that returns a canonical record, the `payload` and
`metadata` mappings are passed through to the output with exactly the
entries of the input mapping, and when either key is absent from the input
the output field is the empty mapping. -/
theorem claim_C4_payload_metadata (ev : List (String × PyValue)) (tv : Option String)
    (ia : Option PyDatetime) (now : PyDatetime) (r : CanonicalRecord)
    (h : normalize_payload (.dict ev) tv ia now = .ok r) :
    (∀ p, lookupKey ev "payload" = some (.dict p) → r.payload = p) ∧
    (lookupKey ev "payload" = Option.none → r.payload = []) ∧
    (∀ p, lookupKey ev "metadata" = some (.dict p) → r.metadata = p) ∧
    (lookupKey ev "metadata" = Option.none → r.metadata = []) := by
  obtain ⟨m, hm, _, _, _, _, _, _, hp, hmd⟩ := normalize_payload_ok h
  obtain ⟨_, _, _, _, hpay, hmeta⟩ := model_validate_ok hm
  refine ⟨fun p hlook => ?_, fun hlook => ?_, fun p hlook => ?_, fun hlook => ?_⟩
  · unfold extract_dict_field at hpay
    rw [hlook] at hpay
    injection hpay with he
    rw [hp, ← he]
  · unfold extract_dict_field at hpay
    rw [hlook] at hpay
    injection hpay with he
    rw [hp, ← he]
  · unfold extract_dict_field at hmeta
    rw [hlook] at hmeta
    injection hmeta with he
    rw [hmd, ← he]
  · unfold extract_dict_field at hmeta
    rw [hlook] at hmeta
    injection hmeta with he
    rw [hmd, ← he]

/-- Witness for C4 at `okEvent` (payload and metadata present) and at
`epochEvent` (both absent). -/
theorem claim_C4_witness :
    normalize_payload (.dict okEvent) Option.none Option.none nowRef = .ok okRecord ∧
      lookupKey okEvent "payload" = some (.dict [("foo", .str "bar")]) ∧
      okRecord.payload = [("foo", .str "bar")] ∧
      normalize_payload (.dict epochEvent) Option.none Option.none nowRef =
        .ok epochRecord ∧
      lookupKey epochEvent "payload" = Option.none ∧ epochRecord.payload = [] :=
  ⟨rfl, rfl,
    (claim_C4_payload_metadata okEvent Option.none Option.none nowRef okRecord rfl).1
      [("foo", .str "bar")] rfl,
    rfl, rfl,
    (claim_C4_payload_metadata epochEvent Option.none Option.none nowRef epochRecord
      rfl).2.1 rfl⟩

/-- C3 fails as stated: the code computes
`telemetry_version or DEFAULT_TELEMETRY_VERSION`, and Python `or` treats
the empty string as falsy, so supplying the empty string yields the default
constant rather than the supplied string. -/
theorem claim_C3_counterexample :
    (normalize_payload (.dict okEvent) (some "") Option.none nowRef).map
        (fun r => r.telemetry_version) = .ok "0.1.0" ∧
      ("0.1.0" : String) ≠ "" :=
  ⟨rfl, by decide⟩

/-- C3 (amended): for every call that returns a canonical record, a
supplied non-empty `telemetry_version` string appears in the output exactly
as supplied, and when the argument is absent — or is the empty string,
which Python `or` treats as falsy — the fixed default constant
`DEFAULT_TELEMETRY_VERSION` is used. -/
theorem claim_C3_version (ev : List (String × PyValue)) (tv : Option String)
    (ia : Option PyDatetime) (now : PyDatetime) (r : CanonicalRecord)
    (h : normalize_payload (.dict ev) tv ia now = .ok r) :
    (∀ s, tv = some s → s ≠ "" → r.telemetry_version = s) ∧
    ((tv = Option.none ∨ tv = some "") →
      r.telemetry_version = DEFAULT_TELEMETRY_VERSION) := by
  obtain ⟨m, hm, hv, _⟩ := normalize_payload_ok h
  constructor
  · intro s hs hne
    rw [hv, hs]
    simp [versionOrDefault, hne]
  · rintro (hs | hs) <;> rw [hv, hs] <;> simp [versionOrDefault]

/-- Witness for C3 (amended) at `okEvent` with the supplied version
`"custom"` and with the version argument absent. -/
theorem claim_C3_witness :
    normalize_payload (.dict okEvent) (some "custom") Option.none nowRef =
        .ok { okRecord with telemetry_version := "custom" } ∧
      ({ okRecord with telemetry_version := "custom" } :
        CanonicalRecord).telemetry_version = "custom" ∧
      normalize_payload (.dict okEvent) Option.none Option.none nowRef = .ok okRecord ∧
      okRecord.telemetry_version = DEFAULT_TELEMETRY_VERSION :=
  ⟨rfl,
    (claim_C3_version okEvent (some "custom") Option.none nowRef
        { okRecord with telemetry_version := "custom" } rfl).1 "custom" rfl
      (by decide),
    rfl,
    (claim_C3_version okEvent Option.none Option.none nowRef okRecord rfl).2
      (Or.inl rfl)⟩

/-- C2 fails as stated: a boolean timestamp does not raise — `bool` is a
subclass of `int` in Python, so `True` takes the numeric branch and is
coerced to epoch second 1, producing a canonical record. -/
theorem claim_C2_counterexample :
    (normalize_payload (.dict boolEvent) Option.none Option.none nowRef).map
      (fun r => r.timestamp) = .ok "1970-01-01T00:00:01Z" := rfl

/-- C2 (amended): a boolean timestamp is accepted, not rejected: it takes
the numeric branch of `_coerce_timestamp` (booleans are instances of `int`
in Python) and is coerced as epoch seconds, `True` as 1 and `False` as 0,
and any canonical record produced from such an event renders that
instant. -/
theorem claim_C2_bool_coerced :
    (∀ b, _coerce_timestamp (.bool b) = .ok (fromtimestampUTC (if b then 1 else 0))) ∧
    (∀ ev tv ia now r b, lookupKey ev "timestamp" = some (.bool b) →
      normalize_payload (.dict ev) tv ia now = .ok r →
      r.timestamp = isoZ (fromtimestampUTC (if b then 1 else 0))) := by
  constructor
  · intro b
    cases b <;> rfl
  · intro ev tv ia now r b hlook h
    obtain ⟨m, hm, _, _, _, _, hts, _, _, _⟩ := normalize_payload_ok h
    obtain ⟨_, _, _, htsx, _, _⟩ := model_validate_ok hm
    unfold extract_timestamp at htsx
    rw [hlook] at htsx
    dsimp only at htsx
    cases b
    · rw [show _coerce_timestamp (.bool false) = .ok (fromtimestampUTC 0) from rfl]
        at htsx
      dsimp only at htsx
      injection htsx with he
      rw [hts, ← he, astimezoneUTC_zero _ rfl]
      rfl
    · rw [show _coerce_timestamp (.bool true) = .ok (fromtimestampUTC 1) from rfl]
        at htsx
      dsimp only at htsx
      injection htsx with he
      rw [hts, ← he, astimezoneUTC_zero _ rfl]
      rfl

/-- Witness for C2 (amended) at `boolEvent`. -/
theorem claim_C2_witness :
    lookupKey boolEvent "timestamp" = some (.bool true) ∧
      normalize_payload (.dict boolEvent) Option.none Option.none nowRef =
        .ok boolRecord ∧
      boolRecord.timestamp = isoZ (fromtimestampUTC 1) :=
  ⟨rfl, rfl,
    (claim_C2_bool_coerced.2 boolEvent Option.none Option.none nowRef boolRecord true
      rfl rfl : boolRecord.timestamp = isoZ (fromtimestampUTC (if true then 1 else 0)))⟩

/-- C8: a numeric timestamp — an integer, or a float carried as its exact
rational value and rounded half-to-even to whole microseconds as CPython
does — is interpreted directly as seconds since the Unix epoch in UTC:
whenever the denoted instant lies in the `datetime` year range 1..9999 the
coercion yields exactly that UTC instant, for an instant outside that range
`datetime.fromtimestamp` raises and the coercion errors instead of
producing a value, any canonical record produced from an integer-timestamp
event renders that instant, and the epoch input 1700000000 renders as
"2023-11-14T22:13:20Z". -/
theorem claim_C8_numeric_epoch :
    (∀ n : Int,
      1 ≤ (fromtimestampUTC n).year ∧ (fromtimestampUTC n).year ≤ 9999 →
      _coerce_timestamp (.int n) = .ok (fromtimestampUTC n)) ∧
    (∀ n : Int,
      ¬(1 ≤ (fromtimestampUTC n).year ∧ (fromtimestampUTC n).year ≤ 9999) →
      ∃ msg, _coerce_timestamp (.int n) = .error msg) ∧
    (∀ q : Rat,
      1 ≤ (fromEpochMicro (roundHalfEven (q * 1000000))).year ∧
        (fromEpochMicro (roundHalfEven (q * 1000000))).year ≤ 9999 →
      _coerce_timestamp (.float q) =
        .ok (fromEpochMicro (roundHalfEven (q * 1000000)))) ∧
    (∀ ev tv ia now r n, lookupKey ev "timestamp" = some (.int n) →
      normalize_payload (.dict ev) tv ia now = .ok r →
      r.timestamp = isoZ (fromtimestampUTC n)) ∧
    isoZ (fromtimestampUTC 1700000000) = "2023-11-14T22:13:20Z" := by
  refine ⟨?_, ?_, ?_, ?_, rfl⟩
  · intro n hr
    unfold fromtimestampUTC at hr ⊢
    show datetime_fromtimestamp (n * 1000000) = .ok (fromEpochMicro (n * 1000000))
    unfold datetime_fromtimestamp
    dsimp only
    rw [if_pos hr]
  · intro n hr
    unfold fromtimestampUTC at hr
    refine ⟨"year " ++ toString (fromEpochMicro (n * 1000000)).year ++
      " is out of range", ?_⟩
    show datetime_fromtimestamp (n * 1000000) = .error _
    unfold datetime_fromtimestamp
    dsimp only
    rw [if_neg hr]
  · intro q hr
    show datetime_fromtimestamp (roundHalfEven (q * 1000000)) =
      .ok (fromEpochMicro (roundHalfEven (q * 1000000)))
    unfold datetime_fromtimestamp
    dsimp only
    rw [if_pos hr]
  · intro ev tv ia now r n hlook h
    obtain ⟨m, hm, _, _, _, _, hts, _, _, _⟩ := normalize_payload_ok h
    obtain ⟨_, _, _, htsx, _, _⟩ := model_validate_ok hm
    unfold extract_timestamp at htsx
    rw [hlook] at htsx
    dsimp only [_coerce_timestamp] at htsx
    cases hdf : datetime_fromtimestamp (n * 1000000) with
    | ok d =>
        rw [hdf] at htsx
        injection htsx with he
        rw [hts, ← he, datetime_fromtimestamp_ok hdf, astimezoneUTC_zero _ rfl]
        rfl
    | error msg =>
        rw [hdf] at htsx
        exact absurd htsx (by simp)

/-- Witness for C8 at `epochEvent` (epoch seconds 1700000000, in range)
and, for the out-of-range error path, at the epoch value 1000000000000
(year 33658). -/
theorem claim_C8_witness :
    (1 ≤ (fromtimestampUTC 1700000000).year ∧
        (fromtimestampUTC 1700000000).year ≤ 9999) ∧
      _coerce_timestamp (.int 1700000000) = .ok (fromtimestampUTC 1700000000) ∧
      ¬(1 ≤ (fromtimestampUTC 1000000000000).year ∧
          (fromtimestampUTC 1000000000000).year ≤ 9999) ∧
      (∃ msg, _coerce_timestamp (.int 1000000000000) = .error msg) ∧
      lookupKey epochEvent "timestamp" = some (.int 1700000000) ∧
      normalize_payload (.dict epochEvent) Option.none Option.none nowRef =
        .ok epochRecord ∧
      epochRecord.timestamp = isoZ (fromtimestampUTC 1700000000) ∧
      epochRecord.timestamp = "2023-11-14T22:13:20Z" :=
  ⟨by decide,
    claim_C8_numeric_epoch.1 1700000000 (by decide),
    by decide,
    claim_C8_numeric_epoch.2.1 1000000000000 (by decide),
    rfl, rfl,
    claim_C8_numeric_epoch.2.2.2.1 epochEvent Option.none Option.none nowRef
      epochRecord 1700000000 rfl rfl,
    rfl⟩

theorem extract_timestamp_ok_coerce {ev : List (String × PyValue)} {t : PyDatetime}
    (h : extract_timestamp ev = .ok t) :
    ∃ v, lookupKey ev "timestamp" = some v ∧ _coerce_timestamp v = .ok t := by
  unfold extract_timestamp at h
  split at h
  · exact absurd h (by simp)
  · rename_i v hv
    split at h
    · rename_i d hd
      injection h with he
      exact ⟨v, hv, he ▸ hd⟩
    · exact absurd h (by simp)

/-- C9: a structured datetime timestamp without a timezone is interpreted
as UTC — the wall-clock fields are kept and tagged UTC, never read as local
time —, one with a timezone is converted to the UTC instant it denotes, and
every canonical record renders its timestamp in the Z-suffixed UTC string
format. -/
theorem claim_C9_structured_datetime :
    (∀ d : PyDatetime, d.tz = Option.none →
      _coerce_timestamp (.dt d) = .ok { d with tz := some 0 }) ∧
    (∀ (d : PyDatetime) (off : Int), d.tz = some off →
      _coerce_timestamp (.dt d) = .ok d) ∧
    (∀ ev tv ia now r (d : PyDatetime), lookupKey ev "timestamp" = some (.dt d) →
      d.tz = Option.none → normalize_payload (.dict ev) tv ia now = .ok r →
      r.timestamp = isoZ { d with tz := some 0 }) ∧
    (∀ ev tv ia now r (d : PyDatetime) (off : Int),
      lookupKey ev "timestamp" = some (.dt d) → d.tz = some off →
      normalize_payload (.dict ev) tv ia now = .ok r →
      r.timestamp = isoZ (astimezoneUTC d)) ∧
    (∀ ev tv ia now r, normalize_payload (.dict ev) tv ia now = .ok r →
      ∃ body, r.timestamp.data = body ++ ['Z']) := by
  refine ⟨?_, ?_, ?_, ?_, ?_⟩
  · intro d hz
    unfold _coerce_timestamp
    dsimp only
    rw [hz]
  · intro d off hz
    unfold _coerce_timestamp
    dsimp only
    rw [hz]
  · intro ev tv ia now r d hlook hz h
    obtain ⟨m, hm, _, _, _, _, hts, _, _, _⟩ := normalize_payload_ok h
    obtain ⟨_, _, _, htsx, _, _⟩ := model_validate_ok hm
    unfold extract_timestamp at htsx
    rw [hlook] at htsx
    dsimp only [_coerce_timestamp] at htsx
    rw [hz] at htsx
    injection htsx with he
    rw [hts, ← he, astimezoneUTC_zero _ rfl]
  · intro ev tv ia now r d off hlook hz h
    obtain ⟨m, hm, _, _, _, _, hts, _, _, _⟩ := normalize_payload_ok h
    obtain ⟨_, _, _, htsx, _, _⟩ := model_validate_ok hm
    unfold extract_timestamp at htsx
    rw [hlook] at htsx
    dsimp only [_coerce_timestamp] at htsx
    rw [hz] at htsx
    injection htsx with he
    rw [hts, ← he]
  · intro ev tv ia now r h
    obtain ⟨m, hm, _, _, _, _, hts, _, _, _⟩ := normalize_payload_ok h
    obtain ⟨_, _, _, htsx, _, _⟩ := model_validate_ok hm
    obtain ⟨v, _, hc⟩ := extract_timestamp_ok_coerce htsx
    obtain ⟨z, hz⟩ := coerce_aware hc
    refine ⟨dateTimeChars (astimezoneUTC m.timestamp), ?_⟩
    rw [hts, isoZ_data _ (astimezoneUTC_tz m.timestamp z hz)]

/-- Witness for C9 at `naiveDtEvent` (a naive structured datetime, kept as
its own wall-clock fields in UTC). -/
theorem claim_C9_witness :
    lookupKey naiveDtEvent "timestamp" =
        some (.dt ⟨2025, 11, 12, 8, 45, 0, 0, Option.none⟩) ∧
      normalize_payload (.dict naiveDtEvent) Option.none Option.none nowRef =
        .ok naiveDtRecord ∧
      naiveDtRecord.timestamp =
        isoZ { (⟨2025, 11, 12, 8, 45, 0, 0, Option.none⟩ : PyDatetime) with
          tz := some 0 } :=
  ⟨rfl, rfl,
    claim_C9_structured_datetime.2.2.1 naiveDtEvent Option.none Option.none nowRef
      naiveDtRecord ⟨2025, 11, 12, 8, 45, 0, 0, Option.none⟩ rfl rfl rfl⟩

/-- C7: in every canonical record, `event_id`, `source` and `action` are
the input strings with surrounding whitespace stripped and are neither
empty nor whitespace-only; when any of them strips to the empty string,
`normalize_payload` raises the validation error instead — with the message
"event_id may not be empty" for a blank `event_id` and the distinct message
"source/action cannot be blank" for a blank `source` or `action` — and no
record is produced. -/
theorem claim_C7_trimmed_nonblank :
    (∀ ev tv ia now r s, normalize_payload (.dict ev) tv ia now = .ok r →
      rawEventId ev = some (.str s) →
      r.event_id = pyStrip s ∧ r.event_id ≠ "" ∧
        ∃ c ∈ r.event_id.data, pyIsSpace c = false) ∧
    (∀ ev tv ia now r s, normalize_payload (.dict ev) tv ia now = .ok r →
      lookupKey ev "source" = some (.str s) →
      r.source = pyStrip s ∧ r.source ≠ "" ∧
        ∃ c ∈ r.source.data, pyIsSpace c = false) ∧
    (∀ ev tv ia now r s, normalize_payload (.dict ev) tv ia now = .ok r →
      lookupKey ev "action" = some (.str s) →
      r.action = pyStrip s ∧ r.action ≠ "" ∧
        ∃ c ∈ r.action.data, pyIsSpace c = false) ∧
    (∀ ev tv ia now s, rawEventId ev = some (.str s) → pyStrip s = "" →
      ∃ errs, normalize_payload (.dict ev) tv ia now = .error (.valueError errs) ∧
        VError.valueError "event_id may not be empty" ∈ errs) ∧
    (∀ ev tv ia now s, lookupKey ev "source" = some (.str s) → pyStrip s = "" →
      ∃ errs, normalize_payload (.dict ev) tv ia now = .error (.valueError errs) ∧
        VError.valueError "source/action cannot be blank" ∈ errs) ∧
    (∀ ev tv ia now s, lookupKey ev "action" = some (.str s) → pyStrip s = "" →
      ∃ errs, normalize_payload (.dict ev) tv ia now = .error (.valueError errs) ∧
        VError.valueError "source/action cannot be blank" ∈ errs) ∧
    ("event_id may not be empty" : String) ≠ "source/action cannot be blank" := by
  refine ⟨?_, ?_, ?_, ?_, ?_, ?_, by decide⟩
  · intro ev tv ia now r s h hraw
    obtain ⟨m, hm, _, hid, _, _, _, _, _, _⟩ := normalize_payload_ok h
    obtain ⟨he, _, _, _, _, _⟩ := model_validate_ok hm
    unfold extract_event_id at he
    rw [hraw] at he
    dsimp only at he
    cases hs : _strip_event_id s with
    | ok out =>
        rw [hs] at he
        injection he with he2
        obtain ⟨ho, hne⟩ := strip_event_id_ok hs
        refine ⟨by rw [hid, ← he2, ho], by rw [hid, ← he2, ho]; exact hne, ?_⟩
        rw [hid, ← he2, ho]
        exact pyStrip_has_nonspace s hne
    | error msg => rw [hs] at he; exact absurd he (by simp)
  · intro ev tv ia now r s h hraw
    obtain ⟨m, hm, _, _, hsrc, _, _, _, _, _⟩ := normalize_payload_ok h
    obtain ⟨_, he, _, _, _, _⟩ := model_validate_ok hm
    unfold extract_required_str at he
    rw [hraw] at he
    dsimp only at he
    cases hs : _strip_required_fields s with
    | ok out =>
        rw [hs] at he
        injection he with he2
        obtain ⟨ho, hne⟩ := strip_required_fields_ok hs
        refine ⟨by rw [hsrc, ← he2, ho], by rw [hsrc, ← he2, ho]; exact hne, ?_⟩
        rw [hsrc, ← he2, ho]
        exact pyStrip_has_nonspace s hne
    | error msg => rw [hs] at he; exact absurd he (by simp)
  · intro ev tv ia now r s h hraw
    obtain ⟨m, hm, _, _, _, hact, _, _, _, _⟩ := normalize_payload_ok h
    obtain ⟨_, _, he, _, _, _⟩ := model_validate_ok hm
    unfold extract_required_str at he
    rw [hraw] at he
    dsimp only at he
    cases hs : _strip_required_fields s with
    | ok out =>
        rw [hs] at he
        injection he with he2
        obtain ⟨ho, hne⟩ := strip_required_fields_ok hs
        refine ⟨by rw [hact, ← he2, ho], by rw [hact, ← he2, ho]; exact hne, ?_⟩
        rw [hact, ← he2, ho]
        exact pyStrip_has_nonspace s hne
    | error msg => rw [hs] at he; exact absurd he (by simp)
  · intro ev tv ia now s hraw hempty
    refine normalize_payload_error_of (Or.inl ?_)
    unfold extract_event_id
    rw [hraw]
    dsimp only
    rw [show _strip_event_id s =
        .error "event_id may not be empty" by simp [_strip_event_id, hempty]]
  · intro ev tv ia now s hraw hempty
    refine normalize_payload_error_of (Or.inr (Or.inl ?_))
    unfold extract_required_str
    rw [hraw]
    dsimp only
    rw [show _strip_required_fields s =
        .error "source/action cannot be blank" by simp [_strip_required_fields, hempty]]
  · intro ev tv ia now s hraw hempty
    refine normalize_payload_error_of (Or.inr (Or.inr (Or.inl ?_)))
    unfold extract_required_str
    rw [hraw]
    dsimp only
    rw [show _strip_required_fields s =
        .error "source/action cannot be blank" by simp [_strip_required_fields, hempty]]

/-- Witness for C7 at `okEvent` (trimmed non-blank success case) and at a
concrete event with a whitespace-only id (error case). -/
theorem claim_C7_witness :
    normalize_payload (.dict okEvent) Option.none Option.none nowRef = .ok okRecord ∧
      rawEventId okEvent = some (.str "abc-123") ∧
      okRecord.event_id = pyStrip "abc-123" ∧ okRecord.event_id ≠ "" ∧
      (∃ c ∈ okRecord.event_id.data, pyIsSpace c = false) ∧
      pyStrip " " = "" ∧
      ∃ errs,
        normalize_payload
            (.dict [("id", .str " "), ("source", .str "lab"), ("action", .str "emit"),
              ("timestamp", .int 0)]) Option.none Option.none nowRef =
          .error (.valueError errs) ∧
        VError.valueError "event_id may not be empty" ∈ errs := by
  obtain ⟨h1, h2, h3⟩ := claim_C7_trimmed_nonblank.1 okEvent Option.none Option.none
    nowRef okRecord "abc-123" rfl rfl
  exact ⟨rfl, rfl, h1, h2, h3, rfl,
    claim_C7_trimmed_nonblank.2.2.2.1
      [("id", .str " "), ("source", .str "lab"), ("action", .str "emit"),
        ("timestamp", .int 0)] Option.none Option.none nowRef " " rfl rfl⟩

/-- C1 fails as stated: "2025-11-12T10:30:00.500Z" is a valid ISO-8601
Z-suffixed timestamp, but the canonical output re-renders its fractional
part with six digits, so the output string differs from the input
string. -/
theorem claim_C1_counterexample :
    (normalize_payload (.dict fracEvent) Option.none Option.none nowRef).map
        (fun r => r.timestamp) = .ok "2025-11-12T10:30:00.500000Z" ∧
      ("2025-11-12T10:30:00.500000Z" : String) ≠ "2025-11-12T10:30:00.500Z" :=
  ⟨rfl, by decide⟩

/-- C1 (amended): for every valid input whose timestamp string is exactly
the canonical Z-suffixed UTC rendering of an instant — extended format with
seconds, a fractional part of exactly six digits present exactly when the
microsecond component is nonzero, trailing "Z" — the output timestamp is
character-for-character the input string.  Z-suffixed ISO-8601 strings
outside this canonical form (such as a three-digit fractional part) may
re-render differently. -/
theorem claim_C1_roundtrip (d : PyDatetime) (hv : d.Valid) (hz : d.tz = some 0)
    (ev : List (String × PyValue)) (tv : Option String) (ia : Option PyDatetime)
    (now : PyDatetime) (r : CanonicalRecord)
    (hts : lookupKey ev "timestamp" = some (.str (isoZ d)))
    (h : normalize_payload (.dict ev) tv ia now = .ok r) :
    r.timestamp = isoZ d := by
  obtain ⟨m, hm, _, _, _, _, htsr, _, _, _⟩ := normalize_payload_ok h
  obtain ⟨_, _, _, htsx, _, _⟩ := model_validate_ok hm
  unfold extract_timestamp at htsx
  rw [hts] at htsx
  dsimp only at htsx
  rw [coerce_isoZ d hv hz] at htsx
  injection htsx with he
  rw [htsr, ← he, astimezoneUTC_zero d hz]

/-- Witness for C1 (amended) at `okEvent`, whose timestamp
"2025-11-12T10:30:00Z" is the canonical rendering of `okInstant`. -/
theorem claim_C1_witness :
    okInstant.Valid ∧ okInstant.tz = some 0 ∧
      isoZ okInstant = "2025-11-12T10:30:00Z" ∧
      lookupKey okEvent "timestamp" = some (.str (isoZ okInstant)) ∧
      normalize_payload (.dict okEvent) Option.none Option.none nowRef =
        .ok okRecord ∧
      okRecord.timestamp = isoZ okInstant :=
  ⟨by decide, rfl, rfl, rfl, rfl,
    claim_C1_roundtrip okInstant (by decide) rfl okEvent Option.none Option.none
      nowRef okRecord rfl rfl⟩
